import Mathlib

/-!
Verification development for the msi-acrpull credential controller.

The Go sources embedded here are `pkg/authorizer/token_exchanger.go`
(`ExchangeACRAccessToken`), `pkg/authorizer/authorizer.go`, and the
`AcrPullBindingReconciler` controller (`Reconcile`, `specOrDefault`,
`addFinalizer`, `removeFinalizer`, `updateServiceAccount`,
`updatePullSecret`, `newBasePullSecret`, `getPullSecret`,
`getPullSecretName`, `getServiceAccountName`, `getTokenRefreshDuration`).

Modelling conventions:
- `time.Time` values are modelled as `Int` seconds since the Unix epoch;
  `time.Duration` values are modelled as `Int` seconds.
- External collaborators (the Azure identity provider, the registry
  authentication endpoint, the JWT library, and the Kubernetes API) are
  modelled as oracles carried in environment records: each remote call's
  result is a field of the environment, and the functions under
  verification are the pure control flow of the Go code over those
  results.
- Kubernetes writes performed by the code are recorded in an `Action`
  trace so that frame and sequencing properties can be stated.
-/

/-- Model of `azcore.AccessToken`: bearer string plus absolute expiry
(seconds since epoch, standing in for `time.Time`). -/
structure AccessToken where
  token : String
  expiresOn : Int
deriving DecidableEq, Repr

/-- The zero value `azcore.AccessToken\x7b\x7d` returned by Go on every
error path of the exchange. -/
def emptyAccessToken : AccessToken := { token := "", expiresOn := 0 }

/-! ## Go `path.Clean`, used by `specOrDefault` on the resource ID -/

/-- One backtracking step of `path.Clean`'s lazybuf for a `..` element:
Go does `out.w--` and then pops until it passes a slash or reaches the
`dotdot` barrier.  The output buffer is kept reversed (head = last
written char); `lastDropped` is the character removed by the preceding
decrement. -/
def cleanPopLoop : List Char → Nat → Char → List Char
  | [], _, _ => []
  | c :: rest, dotdot, lastDropped =>
    if rest.length + 1 > dotdot ∧ lastDropped ≠ '/' then cleanPopLoop rest dotdot c
    else c :: rest

/-- Entry to the backtracking step: drop the last written char and run
the pop loop (caller guarantees `out.length > dotdot`). -/
def cleanPop (out : List Char) (dotdot : Nat) : List Char :=
  match out with
  | [] => []
  | c :: rest => cleanPopLoop rest dotdot c

/-- The main loop of Go `path.Clean`, with the output buffer reversed
and an explicit fuel (each iteration consumes at least one input
character, so `remaining.length + 1` fuel always suffices). -/
def cleanLoop : Nat → List Char → Bool → List Char → Nat → List Char
  | 0, _, _, out, _ => out
  | _ + 1, [], _, out, _ => out
  | fuel + 1, c :: rest, rooted, out, dotdot =>
    if c = '/' then
      cleanLoop fuel rest rooted out dotdot
    else if c = '.' ∧ (rest = [] ∨ rest.head? = some '/') then
      cleanLoop fuel rest rooted out dotdot
    else if c = '.' ∧ rest.head? = some '.' ∧ (rest.tail = [] ∨ rest.tail.head? = some '/') then
      if out.length > dotdot then
        cleanLoop fuel rest.tail rooted (cleanPop out dotdot) dotdot
      else if ¬ rooted then
        let out2 := if out.length > 0 then '/' :: out else out
        let out3 := '.' :: '.' :: out2
        cleanLoop fuel rest.tail rooted out3 out3.length
      else
        cleanLoop fuel rest.tail rooted out dotdot
    else
      let seg := (c :: rest).takeWhile (fun ch => ch ≠ '/')
      let rest2 := (c :: rest).dropWhile (fun ch => ch ≠ '/')
      let out2 := if (rooted ∧ out.length ≠ 1) ∨ (¬ rooted ∧ out.length ≠ 0) then '/' :: out else out
      cleanLoop fuel rest2 rooted (seg.reverse ++ out2) dotdot

/-- Go `path.Clean`: shortest lexically-equivalent path, `.` for the
empty result. -/
def pathClean (path : String) : String :=
  if path = "" then "."
  else
    let chars := path.toList
    let rooted := chars.head? = some '/'
    let remaining := if rooted then chars.tail else chars
    let out0 : List Char := if rooted then ['/'] else []
    let dotdot0 : Nat := if rooted then 1 else 0
    let result := cleanLoop (remaining.length + 1) remaining rooted out0 dotdot0
    if result.length = 0 then "." else String.mk result.reverse

/-! ## Go `strconv.ParseInt(s, 10, 64)`, the semantics of
`json.Number.Int64` used in the token exchanger -/

/-- Decimal digit value of a character, if any. -/
def digitVal (c : Char) : Option Nat :=
  if '0' ≤ c ∧ c ≤ '9' then some (c.toNat - '0'.toNat) else none

/-- Accumulate a decimal digit string into a natural number; fails on
any non-digit. -/
def digitsToNat : List Char → Nat → Option Nat
  | [], acc => some acc
  | c :: rest, acc =>
    match digitVal c with
    | some d => digitsToNat rest (acc * 10 + d)
    | none => none

/-- Go `strconv.ParseInt(s, 10, 64)` as used by `json.Number.Int64`:
returns the parsed value together with an error flag.  On a syntax
error the value is `0`; on overflow the value is clamped to the int64
range (this is exactly Go's behaviour: the returned value accompanies a
non-nil error). -/
def parseInt64 (s : String) : Int × Bool :=
  let chars := s.toList
  let signAndDigits : Bool × List Char :=
    match chars with
    | '+' :: rest => (false, rest)
    | '-' :: rest => (true, rest)
    | rest => (false, rest)
  let neg := signAndDigits.1
  let digits := signAndDigits.2
  match digits with
  | [] => (0, true)
  | _ :: _ =>
    match digitsToNat digits 0 with
    | none => (0, true)
    | some n =>
      if neg then
        if n > 2 ^ 63 then (-(2 ^ 63 : Int), true) else (-(n : Int), false)
      else
        if n ≥ 2 ^ 63 then ((2 ^ 63 : Int) - 1, true) else ((n : Int), false)

/-! ## Token exchanger (`pkg/authorizer/token_exchanger.go`) -/

/-- A decoded JSON claim value as the Go type switch in
`ExchangeACRAccessToken` sees it.  The `float64` payload is represented
by its `int64` truncation, which is the only use the code makes of it
(`time.Unix(int64(exp), 0)`); `number` carries the raw `json.Number`
string. -/
inductive JSONValue where
  | float64 (v : Int)
  | number (s : String)
  | str (s : String)
  | boolean (b : Bool)
  | null
deriving DecidableEq, Repr

/-- Oracle for the collaborators of `ExchangeACRAccessToken`: the two
registry endpoint calls (`.error` = the HTTP call failed, `.ok none` =
a response whose token field is nil, `.ok (some t)` = a response
carrying token `t`) and the JWT library's unverified parse of the
returned access token (`none` = structurally malformed, `some claims` =
the decoded claim map). -/
structure ExchangeEnv where
  refreshExchange : Except String (Option String)
  accessExchange : Except String (Option String)
  parseClaims : Option (List (String × JSONValue))

/-- Lookup of `claims["exp"]` in the decoded claim map (first binding
wins, as in a Go map built from JSON, which holds one entry per key). -/
def claimLookup (claims : List (String × JSONValue)) (key : String) : Option JSONValue :=
  (claims.find? (fun kv => kv.1 == key)).map (fun kv => kv.2)

/-- Model of `ExchangeACRAccessToken`: the two-hop exchange followed by
expiry-claim decoding, returning the Go pair
`(azcore.AccessToken, error)`.  Endpoint URL construction and client
creation are infallible for the hostnames this controller passes and
are not modelled. -/
def ExchangeACRAccessToken (env : ExchangeEnv) : AccessToken × Option String :=
  match env.refreshExchange with
  | .error e => (emptyAccessToken, some ("failed to exchange AAD access token for ACR refresh token: " ++ e))
  | .ok none => (emptyAccessToken, some "got an empty response when exchanging AAD access token for ACR refresh token")
  | .ok (some _refreshToken) =>
    match env.accessExchange with
    | .error e => (emptyAccessToken, some ("failed to exchange ACR refresh token for ACR access token: " ++ e))
    | .ok none => (emptyAccessToken, some "got an empty response when exchanging ACR refresh token for ACR access token")
    | .ok (some accessToken) =>
      match env.parseClaims with
      | none => (emptyAccessToken, some "failed to parse ACR access token")
      | some claims =>
        match claimLookup claims "exp" with
        | some (.float64 exp) => ({ token := accessToken, expiresOn := exp }, none)
        | some (.number exp) =>
          let timestamp := (parseInt64 exp).1
          ({ token := accessToken, expiresOn := timestamp }, none)
        | _ => (emptyAccessToken, some "failed to parse ACR acess token expiration")

/-! ## Reconciler data model -/

/-- Model of `msiacrpullv1beta1.AcrPullBindingSpec`. -/
structure AcrPullBindingSpec where
  managedIdentityClientID : String
  managedIdentityResourceID : String
  acrServer : String
  serviceAccountName : String
deriving DecidableEq, Repr

/-- Model of `msiacrpullv1beta1.AcrPullBindingStatus`; times are epoch
seconds. -/
structure AcrPullBindingStatus where
  tokenExpirationTime : Option Int
  lastTokenRefreshTime : Option Int
  error : String
deriving DecidableEq, Repr

/-- Model of an `AcrPullBinding` object: the metadata fields the
controller touches, its spec and its status.  The object's Kubernetes
namespace is the field `ns` (`namespace` is reserved in Lean). -/
structure AcrPullBinding where
  name : String
  ns : String
  finalizers : List String
  deletionTimestamp : Option Int
  spec : AcrPullBindingSpec
  status : AcrPullBindingStatus
deriving DecidableEq, Repr

/-- Model of a `v1.Secret`: the fields this controller reads or
writes.  `data` is an association list standing for the Go
`map[string][]byte`; `ownerName` models the controller owner
reference. -/
structure Secret where
  name : String
  ns : String
  secretType : String
  labels : List (String × String)
  annotations : List (String × String)
  data : List (String × String)
  ownerName : Option String
deriving DecidableEq, Repr

/-- Model of a `v1.ServiceAccount`; `imagePullSecrets` holds the names
of the referenced secrets (`v1.LocalObjectReference.Name`). -/
structure ServiceAccount where
  name : String
  ns : String
  imagePullSecrets : List String
deriving DecidableEq, Repr

def ownerKey : String := ".metadata.controller"

def dockerConfigKey : String := ".dockerconfigjson"

def msiAcrPullFinalizerName : String := "msi-acrpull.microsoft.com"

def defaultServiceAccountName : String := "default"

/-- `tokenRefreshBuffer = time.Minute * 30`, in seconds. -/
def tokenRefreshBuffer : Int := 30 * 60

/-- The reconciler's configuration fields (the process-wide defaults). -/
structure AcrPullBindingReconciler where
  defaultManagedIdentityResourceID : String
  defaultManagedIdentityClientID : String
  defaultACRServer : String
deriving DecidableEq, Repr

/-- Go map assignment `m[k] = v` on the association-list model:
replaces the binding for `k` or appends one. -/
def mapSet : List (String × String) → String → String → List (String × String)
  | [], k, v => [(k, v)]
  | (k', v') :: rest, k, v =>
    if k' = k then (k, v) :: rest else (k', v') :: mapSet rest k v

/-- `getServiceAccountName`: the user-specified name, or `default`. -/
def getServiceAccountName (userSpecifiedName : String) : String :=
  if userSpecifiedName ≠ "" then userSpecifiedName else defaultServiceAccountName

/-- `getPullSecretName`: deterministic secret name derived from the
binding name. -/
def getPullSecretName (acrBindingName : String) : String :=
  acrBindingName ++ "-msi-acrpull-secret"

/-- `getPullSecret`: first secret in the owned list whose name matches
the derived pull-secret name (Go returns a pointer to that element, or
nil). -/
def getPullSecret (acrBinding : AcrPullBinding) (pullSecrets : List Secret) : Option Secret :=
  pullSecrets.find? (fun secret => secret.name == getPullSecretName acrBinding.name)

/-- `updatePullSecret`: overwrite the docker-config data field of the
given secret, leaving every other field alone. -/
def updatePullSecret (pullSecret : Secret) (dockerConfig : String) : Secret :=
  { pullSecret with data := mapSet pullSecret.data dockerConfigKey dockerConfig }

/-- `newBasePullSecret`: a fresh docker-config secret named after the
binding, in the binding's namespace, with empty labels, owned by the
binding (`ctrl.SetControllerReference`). -/
def newBasePullSecret (acrBinding : AcrPullBinding) (dockerConfig : String) : Secret :=
  { name := getPullSecretName acrBinding.name
    ns := acrBinding.ns
    secretType := "kubernetes.io/dockerconfigjson"
    labels := []
    annotations := []
    data := [(dockerConfigKey, dockerConfig)]
    ownerName := some acrBinding.name }

/-- `appendImagePullSecretRef`: append a reference with the given
secret name to the service account's list. -/
def appendImagePullSecretRef (serviceAccount : ServiceAccount) (secretName : String) : ServiceAccount :=
  { serviceAccount with imagePullSecrets := serviceAccount.imagePullSecrets ++ [secretName] }

/-- Modelled from the spec: `CreateACRDockerCfg` (the secret
materializer's `RenderCredentialFile`) is not among the provided
sources.  Per the spec it renders the registry-credential document for
`acrServer` with the access token as password and fails only on a
structural encoding failure that never occurs in practice, so it is
modelled as a total rendering whose output determines server and
token. -/
def CreateACRDockerCfg (acrServer : String) (accessToken : AccessToken) : Except String String :=
  .ok ("auths/" ++ acrServer ++ "/password/" ++ accessToken.token)

/-- `getTokenRefreshDuration`: time until the token enters the 30
minute refresh buffer, clamped at zero. -/
def getTokenRefreshDuration (accessToken : AccessToken) (now : Int) : Int :=
  let refreshDuration := accessToken.expiresOn - (now + tokenRefreshBuffer)
  if refreshDuration < 0 then 0 else refreshDuration

/-- `specOrDefault`: fill each unset field of the binding spec from the
reconciler's configured defaults.  The resource ID is passed through
`path.Clean`, so an unset resource ID (cleaned to `.`) is replaced by
the default.  Returns `(msiClientID, msiResourceID, acrServer)`. -/
def specOrDefault (r : AcrPullBindingReconciler) (spec : AcrPullBindingSpec) :
    String × String × String :=
  let msiClientID0 := spec.managedIdentityClientID
  let msiResourceID0 := pathClean spec.managedIdentityResourceID
  let acrServer0 := spec.acrServer
  let msiClientID := if msiClientID0 = "" then r.defaultManagedIdentityClientID else msiClientID0
  let msiResourceID := if msiResourceID0 = "." then r.defaultManagedIdentityResourceID else msiResourceID0
  let acrServer := if acrServer0 = "" then r.defaultACRServer else acrServer0
  (msiClientID, msiResourceID, acrServer)

/-- The identity selector the reconciler ends up calling the authorizer
with (`Reconcile` lines: client ID when non-empty, resource ID
otherwise). -/
inductive Selector where
  | clientID (id : String)
  | resourceID (id : String)
deriving DecidableEq, Repr

/-- The selector chosen by `Reconcile` from the `specOrDefault`
outputs. -/
def resolvedSelector (msiClientID msiResourceID : String) : Selector :=
  if msiClientID ≠ "" then .clientID msiClientID else .resourceID msiResourceID

/-- Result of a Kubernetes `Get`: the object, a not-found error, or any
other error. -/
inductive Got (α : Type) where
  | found (x : α)
  | notFound
  | getErr
deriving DecidableEq, Repr

/-- The externally visible steps a reconciliation cycle performs, in
order: Kubernetes writes, the authorizer call, and error logs. -/
inductive ReconcileAction where
  | updateBinding (acrBinding : AcrPullBinding)
  | acquireToken (selector : Selector) (acrServer : String)
  | createSecret (secret : Secret)
  | updateSecret (secret : Secret)
  | updateServiceAccountObj (serviceAccount : ServiceAccount)
  | updateStatus (status : AcrPullBindingStatus)
  | logError (msg : String)
deriving DecidableEq, Repr

/-- Oracle for one reconciliation cycle: the fetch results and the
success or failure of each Kubernetes write, plus the authorizer's
answer and the current time. -/
structure ReconcileEnv where
  acrBinding : Got AcrPullBinding
  updateBindingOk : Bool
  acquire : Except String AccessToken
  pullSecrets : Except Unit (List Secret)
  createSecretOk : Bool
  updateSecretOk : Bool
  serviceAccount : Got ServiceAccount
  updateServiceAccountOk : Bool
  statusUpdateOk : Bool
  now : Int

/-- Model of `ctrl.Result` plus the returned error. -/
structure ReconcileResult where
  requeueAfter : Int
  error : Option String
deriving DecidableEq, Repr

/-- `setSuccessStatus`: the status object written after a successful
refresh (the whole status is replaced, clearing any error). -/
def setSuccessStatus (accessToken : AccessToken) (now : Int) : AcrPullBindingStatus :=
  { tokenExpirationTime := some accessToken.expiresOn
    lastTokenRefreshTime := some now
    error := "" }

/-- `setErrStatus`: the status object written after a failure (only the
error field is overwritten). -/
def setErrStatus (status : AcrPullBindingStatus) (errMsg : String) : AcrPullBindingStatus :=
  { status with error := errMsg }

/-- `addFinalizer`: append the finalizer and persist when absent.
Returns the in-memory binding, the trace, and the error. -/
def addFinalizer (acrBinding : AcrPullBinding) (updateOk : Bool) :
    AcrPullBinding × List ReconcileAction × Option String :=
  if acrBinding.finalizers.contains msiAcrPullFinalizerName then
    (acrBinding, [], none)
  else
    let next := { acrBinding with finalizers := acrBinding.finalizers ++ [msiAcrPullFinalizerName] }
    if updateOk then (next, [.updateBinding next], none)
    else (next, [.logError "Failed to append acr pull binding finalizer"], some "failed to update acr pull binding")

/-- `removeFinalizer`: when the finalizer is present, detach the pull
secret reference from the service account (tolerating a missing
service account) and then remove the finalizer and persist the
binding.  Returns the persisted binding, the trace, and the error. -/
def removeFinalizer (acrBinding : AcrPullBinding) (_serviceAccountName : String)
    (saGet : Got ServiceAccount) (updateSAOk updateBindingOk : Bool) :
    AcrPullBinding × List ReconcileAction × Option String :=
  if acrBinding.finalizers.contains msiAcrPullFinalizerName then
    let finish : List ReconcileAction → AcrPullBinding × List ReconcileAction × Option String := fun priorActions =>
      let next := { acrBinding with
        finalizers := acrBinding.finalizers.filter (fun s => s ≠ msiAcrPullFinalizerName) }
      if updateBindingOk then (next, priorActions ++ [.updateBinding next], none)
      else (acrBinding, priorActions ++ [.logError "Failed to remove acr pull binding finalizer"],
            some "failed to update acr pull binding")
    match saGet with
    | .getErr =>
      (acrBinding, [.logError "Failed to get service account"], some "failed to get service account")
    | .notFound => finish []
    | .found serviceAccount =>
      let pullSecretName := getPullSecretName acrBinding.name
      let nextSA := { serviceAccount with
        imagePullSecrets := serviceAccount.imagePullSecrets.filter (fun reference => reference ≠ pullSecretName) }
      if updateSAOk then finish [.updateServiceAccountObj nextSA]
      else (acrBinding, [.logError "Failed to remove image pull secret reference from default service account"],
            some "failed to update service account")
  else (acrBinding, [], none)

/-- `updateServiceAccount`: idempotent attach of the pull secret
reference.  Any `Get` failure (not-found included) is an error; when
the reference is already present nothing is written.  Returns the
resulting service-account state, the trace, and the error. -/
def updateServiceAccount (acrBinding : AcrPullBinding) (saGet : Got ServiceAccount)
    (updateOk : Bool) : Got ServiceAccount × List ReconcileAction × Option String :=
  match saGet with
  | .getErr => (.getErr, [.logError "Failed to get service account"], some "failed to get service account")
  | .notFound => (.notFound, [.logError "Failed to get service account"], some "failed to get service account")
  | .found serviceAccount =>
    let pullSecretName := getPullSecretName acrBinding.name
    if serviceAccount.imagePullSecrets.contains pullSecretName then
      (.found serviceAccount, [], none)
    else
      let next := appendImagePullSecretRef serviceAccount pullSecretName
      if updateOk then (.found next, [.updateServiceAccountObj next], none)
      else (.found next, [.logError "Failed to append image pull secret reference to default service account"],
            some "failed to update service account")

/-- The create-or-update block for the owned pull secret: a new secret
when no owned secret matches the derived name, otherwise an in-place
update of `pullSecrets.Items[0]` -- exactly as the Go code writes the
first element of the owner-indexed list. -/
def syncPullSecret (acrBinding : AcrPullBinding) (dockerConfig : String)
    (pullSecrets : List Secret) (createOk updateOk : Bool) :
    List ReconcileAction × Option String :=
  match pullSecrets with
  | [] =>
    let pullSecret := newBasePullSecret acrBinding dockerConfig
    if createOk then ([.createSecret pullSecret], none)
    else ([.logError "Failed to create pull secret in cluster"], some "failed to create pull secret")
  | s0 :: rest =>
    if (getPullSecret acrBinding (s0 :: rest)).isSome then
      let pullSecret := updatePullSecret s0 dockerConfig
      if updateOk then ([.updateSecret pullSecret], none)
      else ([.logError "Failed to update pull secret"], some "failed to update pull secret")
    else
      let pullSecret := newBasePullSecret acrBinding dockerConfig
      if createOk then ([.createSecret pullSecret], none)
      else ([.logError "Failed to create pull secret in cluster"], some "failed to create pull secret")

/-- Everything `Reconcile` does after a successful token acquisition
and credential rendering: list owned secrets, create or update the
pull secret, attach it to the service account, write status, compute
the requeue delay. -/
def syncResources (acrBinding : AcrPullBinding) (dockerConfig : String)
    (acrAccessToken : AccessToken) (env : ReconcileEnv) :
    List ReconcileAction × ReconcileResult :=
  match env.pullSecrets with
  | .error _ =>
    ([.logError "unable to list child secrets"],
     { requeueAfter := 0, error := some "unable to list child secrets" })
  | .ok pullSecrets =>
    let secretStep := syncPullSecret acrBinding dockerConfig pullSecrets
      env.createSecretOk env.updateSecretOk
    match secretStep with
    | (secretActions, some e) => (secretActions, { requeueAfter := 0, error := some e })
    | (secretActions, none) =>
      let saStep := updateServiceAccount acrBinding env.serviceAccount env.updateServiceAccountOk
      match saStep.2.2 with
      | some e => (secretActions ++ saStep.2.1, { requeueAfter := 0, error := some e })
      | none =>
        if env.statusUpdateOk then
          (secretActions ++ saStep.2.1 ++ [ReconcileAction.updateStatus (setSuccessStatus acrAccessToken env.now)],
           { requeueAfter := getTokenRefreshDuration acrAccessToken env.now, error := none })
        else
          (secretActions ++ saStep.2.1 ++ [ReconcileAction.logError "Failed to update acr binding status"],
           { requeueAfter := 0, error := some "failed to update acr binding status" })

/-- The credential-refresh tail of `Reconcile` (everything after the
finalizer step in the non-deleting branch): resolve selector and
server, call the authorizer, render the credential file, and run the
resource sync. -/
def reconcileCredentials (r : AcrPullBindingReconciler) (acrBinding : AcrPullBinding)
    (env : ReconcileEnv) : List ReconcileAction × ReconcileResult :=
  let resolved := specOrDefault r acrBinding.spec
  let msiClientID := resolved.1
  let msiResourceID := resolved.2.1
  let acrServer := resolved.2.2
  let selector := resolvedSelector msiClientID msiResourceID
  let tail : List ReconcileAction × ReconcileResult :=
    match env.acquire with
    | .error e =>
      let statusActions :=
        if env.statusUpdateOk then [ReconcileAction.updateStatus (setErrStatus acrBinding.status e)]
        else [ReconcileAction.logError "Failed to update error status"]
      (ReconcileAction.logError "Failed to get ACR access token" :: statusActions,
       { requeueAfter := 0, error := some e })
    | .ok acrAccessToken =>
      match CreateACRDockerCfg acrServer acrAccessToken with
      | .error e => ([.logError "unable to create DockerConfig"], { requeueAfter := 0, error := some e })
      | .ok dockerConfig => syncResources acrBinding dockerConfig acrAccessToken env
  (ReconcileAction.acquireToken selector acrServer :: tail.1, tail.2)

/-- Model of `AcrPullBindingReconciler.Reconcile`: fetch, finalizer
lifecycle, then the credential-refresh tail. -/
def Reconcile (r : AcrPullBindingReconciler) (env : ReconcileEnv) :
    List ReconcileAction × ReconcileResult :=
  match env.acrBinding with
  | .getErr => ([], { requeueAfter := 0, error := some "unable to fetch acrPullBinding" })
  | .notFound => ([], { requeueAfter := 0, error := none })
  | .found acrBinding0 =>
    let serviceAccountName := getServiceAccountName acrBinding0.spec.serviceAccountName
    if acrBinding0.deletionTimestamp.isNone then
      let finalizerStep := addFinalizer acrBinding0 env.updateBindingOk
      match finalizerStep.2.2 with
      | some e => (finalizerStep.2.1, { requeueAfter := 0, error := some e })
      | none =>
        let tail := reconcileCredentials r finalizerStep.1 env
        (finalizerStep.2.1 ++ tail.1, tail.2)
    else
      let removed := removeFinalizer acrBinding0 serviceAccountName env.serviceAccount
        env.updateServiceAccountOk env.updateBindingOk
      (removed.2.1, { requeueAfter := 0, error := removed.2.2 })

/-! ## Trace projections used in the statements -/

/-- The authorizer calls recorded in a trace. -/
def acquisitions (actions : List ReconcileAction) : List ReconcileAction :=
  actions.filter (fun a => match a with | .acquireToken _ _ => true | _ => false)

/-- The pull-secret writes (creates and updates) recorded in a trace. -/
def secretWrites (actions : List ReconcileAction) : List ReconcileAction :=
  actions.filter (fun a =>
    match a with | .createSecret _ => true | .updateSecret _ => true | _ => false)

/-! ## Concrete instances used by closed theorems -/

/-- An empty status, the zero value of `AcrPullBindingStatus`. -/
def emptyStatus : AcrPullBindingStatus :=
  { tokenExpirationTime := none, lastTokenRefreshTime := none, error := "" }

/-- Reconciler configuration with a process-wide default client ID,
default resource ID and default registry. -/
def rC1 : AcrPullBindingReconciler :=
  { defaultManagedIdentityResourceID := "/sub/default-id"
    defaultManagedIdentityClientID := "default-client"
    defaultACRServer := "r.azurecr.io" }

/-- A binding carrying an explicit resource ID and no explicit client
ID, with the finalizer already present. -/
def bindingC1 : AcrPullBinding :=
  { name := "b1", ns := "ns1", finalizers := [msiAcrPullFinalizerName]
    deletionTimestamp := none
    spec := { managedIdentityClientID := "", managedIdentityResourceID := "/sub/id1"
              acrServer := "", serviceAccountName := "" }
    status := emptyStatus }

/-- A cycle for `bindingC1` in which every collaborator succeeds. -/
def envC1 : ReconcileEnv :=
  { acrBinding := .found bindingC1, updateBindingOk := true
    acquire := .ok { token := "fresh-token", expiresOn := 1700000000 }
    pullSecrets := .ok [], createSecretOk := true, updateSecretOk := true
    serviceAccount := .found { name := "default", ns := "ns1", imagePullSecrets := [] }
    updateServiceAccountOk := true, statusUpdateOk := true, now := 1690000000 }

def rC2 : AcrPullBindingReconciler :=
  { defaultManagedIdentityResourceID := "/sub/default-id"
    defaultManagedIdentityClientID := ""
    defaultACRServer := "r.azurecr.io" }

/-- An active binding that does not yet carry the finalizer. -/
def bindingC2 : AcrPullBinding :=
  { name := "b2", ns := "ns2", finalizers := [], deletionTimestamp := none
    spec := { managedIdentityClientID := "", managedIdentityResourceID := ""
              acrServer := "", serviceAccountName := "" }
    status := emptyStatus }

/-- A cycle for `bindingC2` in which every collaborator succeeds. -/
def envC2 : ReconcileEnv :=
  { acrBinding := .found bindingC2, updateBindingOk := true
    acquire := .ok { token := "fresh-token", expiresOn := 1700000000 }
    pullSecrets := .ok [], createSecretOk := true, updateSecretOk := true
    serviceAccount := .found { name := "default", ns := "ns2", imagePullSecrets := [] }
    updateServiceAccountOk := true, statusUpdateOk := true, now := 1690000000 }

def rC3 : AcrPullBindingReconciler := rC2

/-- An active binding with the finalizer present. -/
def bindingC3 : AcrPullBinding :=
  { name := "b3", ns := "ns3", finalizers := [msiAcrPullFinalizerName]
    deletionTimestamp := none
    spec := { managedIdentityClientID := "client-3", managedIdentityResourceID := ""
              acrServer := "r.azurecr.io", serviceAccountName := "" }
    status := emptyStatus }

/-- A cycle for `bindingC3` in which everything succeeds except the
final status write. -/
def envC3 : ReconcileEnv :=
  { acrBinding := .found bindingC3, updateBindingOk := true
    acquire := .ok { token := "fresh-token", expiresOn := 1700000000 }
    pullSecrets := .ok [], createSecretOk := true, updateSecretOk := true
    serviceAccount := .found { name := "default", ns := "ns3", imagePullSecrets := [] }
    updateServiceAccountOk := true, statusUpdateOk := false, now := 1690000000 }

def rC7 : AcrPullBindingReconciler := rC2

/-- An active binding with the finalizer present, targeting registry
`r.azurecr.io` via an explicit client ID. -/
def bindingC7 : AcrPullBinding :=
  { name := "b1", ns := "ns1", finalizers := [msiAcrPullFinalizerName]
    deletionTimestamp := none
    spec := { managedIdentityClientID := "client-1", managedIdentityResourceID := ""
              acrServer := "r.azurecr.io", serviceAccountName := "" }
    status := emptyStatus }

/-- A secret owned by `bindingC7` that is not the derived pull secret:
it sits first in the owner-indexed list. -/
def strayOwnedSecret : Secret :=
  { name := "stray-owned-secret", ns := "ns1", secretType := "Opaque"
    labels := [("team", "a")], annotations := []
    data := [("unrelated-key", "unrelated-value")]
    ownerName := some "b1" }

/-- The derived pull secret for `bindingC7`, second in the list. -/
def matchingPullSecret : Secret :=
  { name := "b1-msi-acrpull-secret", ns := "ns1", secretType := "kubernetes.io/dockerconfigjson"
    labels := [], annotations := []
    data := [(dockerConfigKey, "stale-credentials")]
    ownerName := some "b1" }

/-- A cycle for `bindingC7` whose owned-secret list holds the stray
secret first and the derived pull secret second; every collaborator
succeeds. -/
def envC7 : ReconcileEnv :=
  { acrBinding := .found bindingC7, updateBindingOk := true
    acquire := .ok { token := "fresh-token", expiresOn := 1700000000 }
    pullSecrets := .ok [strayOwnedSecret, matchingPullSecret]
    createSecretOk := true, updateSecretOk := true
    serviceAccount := .found { name := "default", ns := "ns1", imagePullSecrets := [] }
    updateServiceAccountOk := true, statusUpdateOk := true, now := 1690000000 }

/-- A binding under deletion, with the finalizer present. -/
def bindingC9 : AcrPullBinding :=
  { name := "b1", ns := "ns1", finalizers := [msiAcrPullFinalizerName]
    deletionTimestamp := some 100
    spec := { managedIdentityClientID := "", managedIdentityResourceID := ""
              acrServer := "", serviceAccountName := "" }
    status := emptyStatus }

/-- A cycle like `envC3` but whose token acquisition fails. -/
def envC3err : ReconcileEnv :=
  { acrBinding := .found bindingC3, updateBindingOk := true
    acquire := .error "boom"
    pullSecrets := .ok [], createSecretOk := true, updateSecretOk := true
    serviceAccount := .found { name := "default", ns := "ns3", imagePullSecrets := [] }
    updateServiceAccountOk := true, statusUpdateOk := false, now := 1690000000 }

/-- The stray secret as the renewal cycle rewrites it: its
credential-file key is overwritten with the freshly rendered
credentials while all its other fields stay. -/
def clobberedStraySecret : Secret :=
  { strayOwnedSecret with
    data := [("unrelated-key", "unrelated-value"),
             (dockerConfigKey, "auths/r.azurecr.io/password/fresh-token")] }

/-! ## C4 -/

/-- C4: `getTokenRefreshDuration` returns `0` when the token's
`expiresOn` is below `now` plus the 30 minute buffer, returns exactly
`expiresOn - now - buffer` otherwise, and is never negative. -/
theorem getTokenRefreshDuration_spec (accessToken : AccessToken) (now : Int) :
    (accessToken.expiresOn < now + tokenRefreshBuffer →
       getTokenRefreshDuration accessToken now = 0)
  ∧ (now + tokenRefreshBuffer ≤ accessToken.expiresOn →
       getTokenRefreshDuration accessToken now = accessToken.expiresOn - now - tokenRefreshBuffer)
  ∧ 0 ≤ getTokenRefreshDuration accessToken now := by
  simp only [getTokenRefreshDuration]
  refine ⟨fun h => ?_, fun h => ?_, ?_⟩ <;> split <;> omega

theorem getTokenRefreshDuration_spec_witness :
    getTokenRefreshDuration { token := "t", expiresOn := 10000 } 1000 = 10000 - 1000 - tokenRefreshBuffer
  ∧ getTokenRefreshDuration { token := "t", expiresOn := 1000 } 1000 = 0 :=
  ⟨(getTokenRefreshDuration_spec { token := "t", expiresOn := 10000 } 1000).2.1 (by decide),
   (getTokenRefreshDuration_spec { token := "t", expiresOn := 1000 } 1000).1 (by decide)⟩

/-! ## C5 -/

/-- C5: on a successful two-hop exchange, the expiry claim is accepted
both as a float and as an integer-like `json.Number`, and `expiresOn`
equals the decoded epoch-seconds value; any other claim representation
fails with the expiration-decode error, and a structurally malformed
token fails with the token-parse error. -/
theorem exchange_expiry_claim_decoding (env : ExchangeEnv) (rt tok : String)
    (h1 : env.refreshExchange = .ok (some rt))
    (h2 : env.accessExchange = .ok (some tok)) :
    (env.parseClaims = none →
       ExchangeACRAccessToken env = (emptyAccessToken, some "failed to parse ACR access token"))
  ∧ (∀ claims : List (String × JSONValue), env.parseClaims = some claims →
      ((∀ v : Int, claimLookup claims "exp" = some (.float64 v) →
          ExchangeACRAccessToken env = ({ token := tok, expiresOn := v }, none))
      ∧ (∀ s : String, claimLookup claims "exp" = some (.number s) → (parseInt64 s).2 = false →
          ExchangeACRAccessToken env = ({ token := tok, expiresOn := (parseInt64 s).1 }, none))
      ∧ ((∀ v : Int, claimLookup claims "exp" ≠ some (.float64 v)) →
         (∀ s : String, claimLookup claims "exp" ≠ some (.number s)) →
          ExchangeACRAccessToken env
            = (emptyAccessToken, some "failed to parse ACR acess token expiration")))) := by
  obtain ⟨re, ae, pc⟩ := env
  dsimp only at h1 h2
  subst h1; subst h2
  constructor
  · intro h; dsimp only at h; subst h; rfl
  · intro claims hc; dsimp only at hc; subst hc
    refine ⟨fun v hv => ?_, fun s hs _hok => ?_, fun hnf hnn => ?_⟩
    · simp only [ExchangeACRAccessToken, hv]
    · simp only [ExchangeACRAccessToken, hs]
    · rcases hl : claimLookup claims "exp" with _ | val
      · simp only [ExchangeACRAccessToken, hl]
      · cases val with
        | float64 v => exact absurd hl (hnf v)
        | number s => exact absurd hl (hnn s)
        | str s => simp only [ExchangeACRAccessToken, hl]
        | boolean b => simp only [ExchangeACRAccessToken, hl]
        | null => simp only [ExchangeACRAccessToken, hl]

theorem exchange_expiry_claim_decoding_witness :
    ExchangeACRAccessToken
      { refreshExchange := .ok (some "rt"), accessExchange := .ok (some "tok"),
        parseClaims := some [("exp", .float64 1700000000)] }
      = ({ token := "tok", expiresOn := 1700000000 }, none)
  ∧ ExchangeACRAccessToken
      { refreshExchange := .ok (some "rt"), accessExchange := .ok (some "tok"),
        parseClaims := some [("exp", .number "1700000500")] }
      = ({ token := "tok", expiresOn := 1700000500 }, none) := by
  constructor
  · exact ((exchange_expiry_claim_decoding _ "rt" "tok" rfl rfl).2 _ rfl).1 1700000000 (by decide)
  · have h := ((exchange_expiry_claim_decoding
      { refreshExchange := .ok (some "rt"), accessExchange := .ok (some "tok"),
        parseClaims := some [("exp", .number "1700000500")] } "rt" "tok" rfl rfl).2 _ rfl).2.1
      "1700000500" (by decide) (by decide)
    rw [h]; decide

/-! ## C6 -/

/-- C6: a nil refresh token in the first response, or a nil access
token in the second, fails the exchange with the corresponding
empty-response error, returning the zero-valued `AccessToken`. -/
theorem exchange_empty_response_zero_token (env : ExchangeEnv) :
    (env.refreshExchange = .ok none →
       ExchangeACRAccessToken env
         = (emptyAccessToken, some "got an empty response when exchanging AAD access token for ACR refresh token"))
  ∧ (∀ rt : String, env.refreshExchange = .ok (some rt) → env.accessExchange = .ok none →
       ExchangeACRAccessToken env
         = (emptyAccessToken, some "got an empty response when exchanging ACR refresh token for ACR access token")) := by
  unfold ExchangeACRAccessToken
  exact ⟨fun h => by rw [h], fun rt h1 h2 => by rw [h1, h2]⟩

theorem exchange_empty_response_zero_token_witness :
    ExchangeACRAccessToken
      { refreshExchange := .ok none, accessExchange := .ok (some "tok"), parseClaims := none }
      = (emptyAccessToken, some "got an empty response when exchanging AAD access token for ACR refresh token")
  ∧ ExchangeACRAccessToken
      { refreshExchange := .ok (some "rt"), accessExchange := .ok none, parseClaims := none }
      = (emptyAccessToken, some "got an empty response when exchanging ACR refresh token for ACR access token") :=
  ⟨(exchange_empty_response_zero_token _).1 rfl,
   (exchange_empty_response_zero_token _).2 "rt" rfl rfl⟩

/-! ## C10 -/

/-- C10: when the expiry claim is a `json.Number` whose `Int64`
conversion fails, the conversion error is discarded and the exchange
succeeds with `expiresOn` set to the partial conversion result (zero on
a syntax error), instead of failing with a decode error. -/
theorem exchange_number_conversion_error_ignored (env : ExchangeEnv) (rt tok s : String)
    (claims : List (String × JSONValue))
    (h1 : env.refreshExchange = .ok (some rt))
    (h2 : env.accessExchange = .ok (some tok))
    (h3 : env.parseClaims = some claims)
    (h4 : claimLookup claims "exp" = some (.number s))
    (_h5 : (parseInt64 s).2 = true) :
    ExchangeACRAccessToken env = ({ token := tok, expiresOn := (parseInt64 s).1 }, none) := by
  obtain ⟨re, ae, pc⟩ := env
  dsimp only at h1 h2 h3
  subst h1; subst h2; subst h3
  simp only [ExchangeACRAccessToken, h4]

theorem exchange_number_conversion_error_ignored_witness :
    ExchangeACRAccessToken
      { refreshExchange := .ok (some "rt"), accessExchange := .ok (some "tok"),
        parseClaims := some [("exp", .number "12.5")] }
      = ({ token := "tok", expiresOn := 0 }, none) := by
  have h := exchange_number_conversion_error_ignored
    { refreshExchange := .ok (some "rt"), accessExchange := .ok (some "tok"),
      parseClaims := some [("exp", .number "12.5")] }
    "rt" "tok" "12.5" [("exp", .number "12.5")] rfl rfl rfl (by decide) (by decide)
  rw [h]; decide

/-! ## C8 -/

/-- C8: attaching the derived pull secret is idempotent: a service
account already holding a reference with the derived name is left
unchanged (no write happens), and the step preserves the invariant
that the service account holds at most one reference with that name. -/
theorem updateServiceAccount_idempotent_attach (acrBinding : AcrPullBinding)
    (sa : ServiceAccount) (updateOk : Bool) :
    (sa.imagePullSecrets.contains (getPullSecretName acrBinding.name) = true →
       updateServiceAccount acrBinding (.found sa) updateOk = (.found sa, [], none))
  ∧ (∀ sa' : ServiceAccount,
       (updateServiceAccount acrBinding (.found sa) updateOk).1 = .found sa' →
       sa.imagePullSecrets.count (getPullSecretName acrBinding.name) ≤ 1 →
       sa'.imagePullSecrets.count (getPullSecretName acrBinding.name) ≤ 1) := by
  constructor
  · intro h
    simp only [updateServiceAccount, h, if_true]
  · intro sa' h hcount
    by_cases hmem : sa.imagePullSecrets.contains (getPullSecretName acrBinding.name) = true
    · simp only [updateServiceAccount, hmem, if_true] at h
      cases h
      exact hcount
    · simp only [Bool.not_eq_true] at hmem
      have hnotmem : getPullSecretName acrBinding.name ∉ sa.imagePullSecrets := by
        simpa using hmem
      have hzero : sa.imagePullSecrets.count (getPullSecretName acrBinding.name) = 0 :=
        List.count_eq_zero.mpr hnotmem
      simp only [updateServiceAccount, hmem] at h
      cases updateOk with
      | true =>
        simp only [if_true] at h
        cases h
        simp [appendImagePullSecretRef, List.count_append, hzero]
      | false =>
        simp only [if_false, Bool.false_eq_true] at h
        cases h
        simp [appendImagePullSecretRef, List.count_append, hzero]

theorem updateServiceAccount_idempotent_attach_witness :
    updateServiceAccount
      { name := "b1", ns := "ns1", finalizers := [msiAcrPullFinalizerName], deletionTimestamp := none,
        spec := { managedIdentityClientID := "", managedIdentityResourceID := "", acrServer := "", serviceAccountName := "" },
        status := { tokenExpirationTime := none, lastTokenRefreshTime := none, error := "" } }
      (.found { name := "default", ns := "ns1", imagePullSecrets := ["b1-msi-acrpull-secret"] }) true
      = (.found { name := "default", ns := "ns1", imagePullSecrets := ["b1-msi-acrpull-secret"] }, [], none) :=
  (updateServiceAccount_idempotent_attach _ _ true).1 (by decide)

/-! ## C9 -/

/-- C9: finalizing a binding whose target service account no longer
exists completes without error: the not-found lookup is tolerated, the
finalizer is removed from the binding's list, and the updated binding
is persisted (the only write of the step). -/
theorem removeFinalizer_missing_service_account (acrBinding : AcrPullBinding)
    (serviceAccountName : String) (updateSAOk : Bool)
    (h1 : acrBinding.finalizers.contains msiAcrPullFinalizerName = true) :
    removeFinalizer acrBinding serviceAccountName .notFound updateSAOk true
      = ({ acrBinding with finalizers := acrBinding.finalizers.filter (fun s => s ≠ msiAcrPullFinalizerName) },
         [.updateBinding { acrBinding with finalizers := acrBinding.finalizers.filter (fun s => s ≠ msiAcrPullFinalizerName) }],
         none)
  ∧ ((removeFinalizer acrBinding serviceAccountName .notFound updateSAOk true).1).finalizers.contains
      msiAcrPullFinalizerName = false := by
  have heq : removeFinalizer acrBinding serviceAccountName .notFound updateSAOk true
      = ({ acrBinding with finalizers := acrBinding.finalizers.filter (fun s => s ≠ msiAcrPullFinalizerName) },
         [.updateBinding { acrBinding with finalizers := acrBinding.finalizers.filter (fun s => s ≠ msiAcrPullFinalizerName) }],
         none) := by
    simp only [removeFinalizer, h1, if_true, List.nil_append]
  refine ⟨heq, ?_⟩
  rw [heq]
  simp [List.mem_filter]

theorem removeFinalizer_missing_service_account_witness :
    removeFinalizer bindingC9 "default" .notFound true true
      = ({ bindingC9 with finalizers := [] },
         [.updateBinding { bindingC9 with finalizers := [] }], none) := by
  have h := (removeFinalizer_missing_service_account bindingC9 "default" true (by decide)).1
  rw [h]; decide

/-! ## Trace lemmas -/

/-- Helper: the service-account step never calls the authorizer. -/
theorem acquisitions_updateServiceAccount (acrBinding : AcrPullBinding)
    (saGet : Got ServiceAccount) (updateOk : Bool) :
    acquisitions (updateServiceAccount acrBinding saGet updateOk).2.1 = [] := by
  rcases saGet with sa | _ | _
  · simp only [updateServiceAccount]
    split_ifs <;> simp [acquisitions]
  · simp [acquisitions, updateServiceAccount]
  · simp [acquisitions, updateServiceAccount]

/-- Helper: the pull-secret create-or-update step never calls the
authorizer. -/
theorem acquisitions_syncPullSecret (acrBinding : AcrPullBinding) (dockerConfig : String)
    (pullSecrets : List Secret) (createOk updateOk : Bool) :
    acquisitions (syncPullSecret acrBinding dockerConfig pullSecrets createOk updateOk).1 = [] := by
  rcases pullSecrets with _ | ⟨s0, rest⟩
  · simp only [syncPullSecret]
    split_ifs <;> simp [acquisitions]
  · simp only [syncPullSecret]
    split_ifs <;> simp [acquisitions]

/-- Helper: the resource-sync tail never calls the authorizer. -/
theorem acquisitions_syncResources (acrBinding : AcrPullBinding) (dockerConfig : String)
    (acrAccessToken : AccessToken) (env : ReconcileEnv) :
    acquisitions (syncResources acrBinding dockerConfig acrAccessToken env).1 = [] := by
  simp only [syncResources]
  rcases env.pullSecrets with u | pullSecrets
  · simp [acquisitions]
  · rcases hss : syncPullSecret acrBinding dockerConfig pullSecrets
        env.createSecretOk env.updateSecretOk with ⟨secretActions, secretErr⟩
    have hsacts : acquisitions secretActions = [] := by
      have := acquisitions_syncPullSecret acrBinding dockerConfig pullSecrets
        env.createSecretOk env.updateSecretOk
      rw [hss] at this
      exact this
    have hsa := acquisitions_updateServiceAccount acrBinding env.serviceAccount
      env.updateServiceAccountOk
    rcases secretErr with _ | e
    · rcases hsa2 : updateServiceAccount acrBinding env.serviceAccount
          env.updateServiceAccountOk with ⟨sares, saacts, saerr⟩
      rw [hsa2] at hsa
      rcases saerr with _ | e2
      · cases hsu : env.statusUpdateOk <;>
          simp_all [acquisitions, List.filter_append]
      · simp_all [acquisitions, List.filter_append]
    · simp_all [acquisitions, List.filter_append]

/-- Helper: `acquisitions` keeps a leading authorizer call. -/
theorem acquisitions_cons_acquire (selector : Selector) (acrServer : String)
    (l : List ReconcileAction) :
    acquisitions (.acquireToken selector acrServer :: l)
      = .acquireToken selector acrServer :: acquisitions l := by
  simp [acquisitions]

/-- Helper: one cycle of the credential-refresh tail performs exactly
one authorizer call, with the selector and registry resolved by
`specOrDefault`. -/
theorem acquisitions_reconcileCredentials (r : AcrPullBindingReconciler)
    (b : AcrPullBinding) (env : ReconcileEnv) :
    acquisitions (reconcileCredentials r b env).1
      = [.acquireToken (resolvedSelector (specOrDefault r b.spec).1 (specOrDefault r b.spec).2.1)
          (specOrDefault r b.spec).2.2] := by
  simp only [reconcileCredentials]
  rcases ha : env.acquire with e | tok
  · cases hsu : env.statusUpdateOk <;> simp [acquisitions, ha, hsu]
  · simp only [ha, CreateACRDockerCfg]
    rw [acquisitions_cons_acquire, acquisitions_syncResources]

/-! ## C1 -/

/-- C1 (amended): in the Active state with the finalizer present, the
cycle performs exactly one authorizer call, whose selector follows the
precedence: explicit client ID, then configured default client ID,
then explicit resource ID, then configured default resource ID.  A
configured default client ID therefore wins over an explicit resource
ID. -/
theorem reconcile_selector_precedence (r : AcrPullBindingReconciler)
    (b : AcrPullBinding) (env : ReconcileEnv)
    (h1 : env.acrBinding = .found b) (h2 : b.deletionTimestamp = none)
    (h3 : b.finalizers.contains msiAcrPullFinalizerName = true) :
    acquisitions (Reconcile r env).1
      = [.acquireToken (resolvedSelector (specOrDefault r b.spec).1 (specOrDefault r b.spec).2.1)
          (specOrDefault r b.spec).2.2]
  ∧ (b.spec.managedIdentityClientID ≠ "" →
       resolvedSelector (specOrDefault r b.spec).1 (specOrDefault r b.spec).2.1
         = .clientID b.spec.managedIdentityClientID)
  ∧ (b.spec.managedIdentityClientID = "" → r.defaultManagedIdentityClientID ≠ "" →
       resolvedSelector (specOrDefault r b.spec).1 (specOrDefault r b.spec).2.1
         = .clientID r.defaultManagedIdentityClientID)
  ∧ (b.spec.managedIdentityClientID = "" → r.defaultManagedIdentityClientID = "" →
       resolvedSelector (specOrDefault r b.spec).1 (specOrDefault r b.spec).2.1
         = .resourceID (if pathClean b.spec.managedIdentityResourceID = "."
             then r.defaultManagedIdentityResourceID
             else pathClean b.spec.managedIdentityResourceID)) := by
  refine ⟨?_, ?_, ?_, ?_⟩
  · simp only [Reconcile, h1, h2, Option.isNone_none, if_true, addFinalizer, h3]
    simp [acquisitions_reconcileCredentials]
  · intro hc
    simp [specOrDefault, resolvedSelector, hc]
  · intro hc hd
    simp [specOrDefault, resolvedSelector, hc, hd]
  · intro hc hd
    simp only [specOrDefault, resolvedSelector, hc, hd, if_true]
    split_ifs <;> simp_all

/-- C1 witness: for `bindingC1` (explicit resource ID, no explicit
client ID) under `rC1` (default client ID configured), the single
authorizer call uses the default client ID. -/
theorem reconcile_selector_precedence_witness :
    acquisitions (Reconcile rC1 envC1).1
      = [.acquireToken (.clientID "default-client") "r.azurecr.io"] := by
  have h := (reconcile_selector_precedence rC1 bindingC1 envC1 rfl rfl (by decide)).1
  rw [h]; decide

/-- C1 counterexample: the claim says that a binding carrying an
explicit resource identifier and no explicit client identifier uses
the resource-ID selector even when a default client identifier is
configured; on `bindingC1`/`rC1` the code instead calls the authorizer
with the configured default client ID, and never with a resource-ID
selector. -/
theorem reconcile_default_client_beats_explicit_resource :
    acquisitions (Reconcile rC1 envC1).1
      = [.acquireToken (.clientID "default-client") "r.azurecr.io"]
  ∧ (Reconcile rC1 envC1).1.contains
      (.acquireToken (.resourceID "/sub/id1") "r.azurecr.io") = false := by
  constructor <;> decide

/-! ## C2 -/

/-- C2 (amended): an Active binding without the finalizer gets the
finalizer appended and persisted, and the same cycle then continues
straight into the credential-refresh tail (token acquisition, secret
and service-account writes); there is no finalizer-only cycle. -/
theorem reconcile_adds_finalizer_and_continues (r : AcrPullBindingReconciler)
    (b : AcrPullBinding) (env : ReconcileEnv)
    (h1 : env.acrBinding = .found b) (h2 : b.deletionTimestamp = none)
    (h3 : b.finalizers.contains msiAcrPullFinalizerName = false)
    (h4 : env.updateBindingOk = true) :
    Reconcile r env
      = (ReconcileAction.updateBinding { b with finalizers := b.finalizers ++ [msiAcrPullFinalizerName] }
           :: (reconcileCredentials r { b with finalizers := b.finalizers ++ [msiAcrPullFinalizerName] } env).1,
         (reconcileCredentials r { b with finalizers := b.finalizers ++ [msiAcrPullFinalizerName] } env).2) := by
  have h3' : msiAcrPullFinalizerName ∉ b.finalizers := by simpa using h3
  simp [Reconcile, h1, h2, addFinalizer, h3', h4]

theorem reconcile_adds_finalizer_and_continues_witness :
    Reconcile rC2 envC2
      = (ReconcileAction.updateBinding { bindingC2 with finalizers := bindingC2.finalizers ++ [msiAcrPullFinalizerName] }
           :: (reconcileCredentials rC2 { bindingC2 with finalizers := bindingC2.finalizers ++ [msiAcrPullFinalizerName] } envC2).1,
         (reconcileCredentials rC2 { bindingC2 with finalizers := bindingC2.finalizers ++ [msiAcrPullFinalizerName] } envC2).2) :=
  reconcile_adds_finalizer_and_continues rC2 bindingC2 envC2 rfl rfl (by decide) rfl

/-- C2 counterexample: the claim says the cycle that adds the
finalizer terminates without token acquisition, secret creation or
service-account attachment; on `bindingC2`/`envC2` the very cycle that
persists the finalizer also calls the authorizer, creates the pull
secret, and attaches it to the service account. -/
theorem reconcile_finalizer_cycle_also_syncs :
    (Reconcile rC2 envC2).1.contains
      (.updateBinding { bindingC2 with finalizers := [msiAcrPullFinalizerName] }) = true
  ∧ acquisitions (Reconcile rC2 envC2).1 ≠ []
  ∧ secretWrites (Reconcile rC2 envC2).1 ≠ []
  ∧ (Reconcile rC2 envC2).1.contains
      (.updateServiceAccountObj { name := "default", ns := "ns2", imagePullSecrets := ["b2-msi-acrpull-secret"] }) = true
  ∧ (Reconcile rC2 envC2).2.error = none := by
  refine ⟨by decide, by decide, by decide, by decide, by decide⟩

/-! ## C3 -/

/-- Helper: with working secret writes, the pull-secret step reports no
error. -/
theorem syncPullSecret_ok (acrBinding : AcrPullBinding) (dockerConfig : String)
    (pullSecrets : List Secret) :
    (syncPullSecret acrBinding dockerConfig pullSecrets true true).2 = none := by
  rcases pullSecrets with _ | ⟨s0, rest⟩ <;>
    simp only [syncPullSecret] <;> split_ifs <;> rfl

/-- Helper: a failing status write after an otherwise successful sync
becomes the cycle's outcome. -/
theorem syncResources_status_failure (acrBinding : AcrPullBinding) (dockerConfig : String)
    (tok : AccessToken) (env : ReconcileEnv) (pss : List Secret) (sa : ServiceAccount)
    (hps : env.pullSecrets = .ok pss) (hcs : env.createSecretOk = true)
    (hus : env.updateSecretOk = true) (hsa : env.serviceAccount = .found sa)
    (husa : env.updateServiceAccountOk = true) (hsu : env.statusUpdateOk = false) :
    (syncResources acrBinding dockerConfig tok env).2
      = { requeueAfter := 0, error := some "failed to update acr binding status" } := by
  simp only [syncResources, hps, hcs, hus, hsa, husa, hsu]
  rcases hss : syncPullSecret acrBinding dockerConfig pss true true with ⟨sacts, serr⟩
  have h0 := syncPullSecret_ok acrBinding dockerConfig pss
  rw [hss] at h0
  simp only at h0
  subst h0
  simp only [updateServiceAccount]
  split_ifs <;> first | rfl | (exfalso; assumption)

/-- C3 (amended): a failure writing the error status after a failed
token acquisition is logged and does not replace the acquisition error
as the cycle's outcome; a failure writing the success status after a
successful refresh, however, is returned as the reconciliation
outcome. -/
theorem reconcile_status_write_policy (r : AcrPullBindingReconciler)
    (b : AcrPullBinding) (env : ReconcileEnv) (e : String)
    (h1 : env.acrBinding = .found b) (h2 : b.deletionTimestamp = none)
    (h3 : b.finalizers.contains msiAcrPullFinalizerName = true)
    (h4 : env.statusUpdateOk = false) :
    (env.acquire = .error e →
       (Reconcile r env).2 = { requeueAfter := 0, error := some e }
     ∧ ReconcileAction.logError "Failed to update error status" ∈ (Reconcile r env).1)
  ∧ (∀ (tok : AccessToken) (pss : List Secret) (sa : ServiceAccount),
       env.acquire = .ok tok → env.pullSecrets = .ok pss →
       env.createSecretOk = true → env.updateSecretOk = true →
       env.serviceAccount = .found sa → env.updateServiceAccountOk = true →
       (Reconcile r env).2 = { requeueAfter := 0, error := some "failed to update acr binding status" }) := by
  have h3' : msiAcrPullFinalizerName ∈ b.finalizers := by simpa using h3
  constructor
  · intro ha
    constructor
    · simp [Reconcile, h1, h2, addFinalizer, h3', reconcileCredentials, ha, h4]
    · simp [Reconcile, h1, h2, addFinalizer, h3', reconcileCredentials, ha, h4]
  · intro tok pss sa ha hps hcs hus hsa husa
    simp only [Reconcile, h1, h2, Option.isNone_none, if_true, addFinalizer, h3, if_true]
    simp only [reconcileCredentials, ha, CreateACRDockerCfg]
    exact syncResources_status_failure b _ tok env pss sa hps hcs hus hsa husa h4

theorem reconcile_status_write_policy_witness :
    (Reconcile rC3 envC3err).2 = { requeueAfter := 0, error := some "boom" }
  ∧ (Reconcile rC3 envC3).2 = { requeueAfter := 0, error := some "failed to update acr binding status" } := by
  constructor
  · exact ((reconcile_status_write_policy rC3 bindingC3 envC3err "boom" rfl rfl (by decide) rfl).1 rfl).1
  · exact (reconcile_status_write_policy rC3 bindingC3 envC3 "unused" rfl rfl (by decide) rfl).2
      { token := "fresh-token", expiresOn := 1700000000 } []
      { name := "default", ns := "ns3", imagePullSecrets := [] } rfl rfl rfl rfl rfl rfl

/-- C3 counterexample: the claim says a status-write failure never
becomes the reconciliation outcome; on `bindingC3`/`envC3` (token
refresh succeeds, only the success-status write fails) the cycle's
returned error is exactly the status-write failure. -/
theorem reconcile_success_status_failure_is_outcome :
    (Reconcile rC3 envC3).2 = { requeueAfter := 0, error := some "failed to update acr binding status" }
  ∧ (Reconcile rC3 envC3).1.contains (.logError "Failed to update acr binding status") = true := by
  refine ⟨by decide, by decide⟩

/-! ## C7 -/

/-- C7: when the owner-indexed secret list holds a stray owned secret
first and the derived pull secret second, the renewal performs exactly
one secret write, and it rewrites the credential-file key of the
stray first secret, leaving the derived pull secret's stale
credentials untouched; the cycle still reports success.  This
contradicts the claim (and the spec), which say the secret found by
name has its credential field updated in place. -/
theorem reconcile_renewal_updates_first_owned_secret :
    secretWrites (Reconcile rC7 envC7).1 = [.updateSecret clobberedStraySecret]
  ∧ (Reconcile rC7 envC7).2.error = none := by
  refine ⟨by decide, by decide⟩
